import Mathlib

/-!
Verification development for the UpLyft backend's CSV importer
(`Server/import_products.py`) and the Otpless token-verification endpoint
(`Server/app.py`, route `/api/auth/otpless-verify`).

The importer reads a CSV with pandas, validates each row (non-empty
`Description`, `UnitPrice` convertible by Python's `float`), inserts the
accepted rows into a sqlite `products` table inside one transaction, and
commits at the end; on an unexpected mid-run exception it rolls the
transaction back.  Python floats are idealised here as exact rationals
together with the special values `inf`, `-inf` and `nan`.
-/

set_option autoImplicit false

namespace UpLyft

/-- Idealisation of a Python `float` value: an exact rational in lowest
terms (`num / den`, `den > 0`, so e.g. `2.50` is `finite 5 2`), plus the
IEEE special values produced by `float("inf")`, `float("-inf")` and
`float("nan")`. -/
inductive PyFloat where
  | finite (num : Int) (den : Nat)
  | inf
  | neginf
  | nan
deriving DecidableEq, Repr

/-- The rational a finite `PyFloat` denotes. -/
def PyFloat.toRat? : PyFloat → Option ℚ
  | .finite n d => some ((n : ℚ) / (d : ℚ))
  | _ => none

/-- `true` exactly on finite values. -/
def PyFloat.isFinite : PyFloat → Bool
  | .finite _ _ => true
  | _ => false

/-- `true` when the value compares `>= 0` (NaN compares false in Python). -/
def PyFloat.isNonneg : PyFloat → Bool
  | .finite n _ => decide (0 ≤ n)
  | .inf => true
  | .neginf => false
  | .nan => false

/-- A row of the sqlite `products` table as inserted by the importer
(`INSERT INTO products (product_name, description, price, category,
image_url)`; the auto-assigned `id` is represented by list position). -/
structure ProductRecord where
  product_name : String
  description : Option String
  price : PyFloat
  category : Option String
  image_url : Option String
deriving DecidableEq, Repr

/-- One CSV row as seen by the loop `for index, row in df.iterrows()`.
`row.get('Description')` / `row.get('UnitPrice')` give `None` when the
column is absent, and pandas gives `NaN` for an empty cell; both cases
make `pd.isna(...)` true and are modelled by `none`.  A present cell is
its textual content. -/
structure SourceRow where
  description : Option String
  unitPrice : Option String
deriving DecidableEq, Repr

/-- Python `str.strip()`: drop leading and trailing whitespace. -/
def pyStrip (s : String) : String :=
  ⟨((s.data.dropWhile Char.isWhitespace).reverse.dropWhile Char.isWhitespace).reverse⟩

/-- Consume further digits of a Python `digitpart` (underscores allowed
only between digits), given the accumulated value and digit count. -/
def digitsAux : List Char → Nat → Nat → Nat × Nat × List Char
  | '_' :: c :: rest, acc, n =>
    if c.isDigit then digitsAux rest (acc * 10 + (c.toNat - 48)) (n + 1)
    else (acc, n, '_' :: c :: rest)
  | c :: rest, acc, n =>
    if c.isDigit then digitsAux rest (acc * 10 + (c.toNat - 48)) (n + 1)
    else (acc, n, c :: rest)
  | [], acc, n => (acc, n, [])

/-- Parse a Python `digitpart` (must start with a digit); returns the
value, the number of digits, and the remaining characters. -/
def digitpart? (cs : List Char) : Option (Nat × Nat × List Char) :=
  match cs with
  | c :: rest => if c.isDigit then some (digitsAux rest (c.toNat - 48) 1) else none
  | [] => none

/-- Like `digitpart?` but an absent digitpart yields `(0, 0, cs)`. -/
def optDigitpart (cs : List Char) : Nat × Nat × List Char :=
  match digitpart? cs with
  | some r => r
  | none => (0, 0, cs)

/-- Consume an optional single sign; returns whether it was `-`. -/
def parseSign : List Char → Bool × List Char
  | '-' :: rest => (true, rest)
  | '+' :: rest => (false, rest)
  | cs => (false, cs)

/-- Parse the mantissa of a Python float literal: `digitpart`,
`digitpart '.' [digitpart]`, or `'.' digitpart`.  Its value is returned
as an exact fraction `numerator / 10 ^ scale`. -/
def parseMantissa (cs : List Char) : Option (Nat × Nat × List Char) :=
  let (ip, ipn, cs1) := optDigitpart cs
  match cs1 with
  | '.' :: rest =>
    let (fp, fpn, cs2) := optDigitpart rest
    if ipn = 0 ∧ fpn = 0 then none
    else some (ip * 10 ^ fpn + fp, fpn, cs2)
  | _ => if ipn = 0 then none else some (ip, 0, cs1)

/-- Parse an optional exponent `('e'|'E') [sign] digitpart` which must
end the string; no exponent yields `0`. -/
def parseExp : List Char → Option Int
  | [] => some 0
  | c :: rest =>
    if c = 'e' ∨ c = 'E' then
      let (eneg, rest1) := parseSign rest
      match digitpart? rest1 with
      | some (e, _, rest2) =>
        if rest2 = [] then some (if eneg then -(e : Int) else (e : Int)) else none
      | none => none
    else none

/-- Reduce a fraction to lowest terms (`d > 0` at every call site). -/
def normRat (n : Int) (d : Nat) : Int × Nat :=
  let g := Nat.gcd n.natAbs d
  (n / (g : Int), d / g)

/-- Python `float(s)` on a string: strip whitespace, optional sign, then
`inf`/`infinity`/`nan` (case-insensitive) or a decimal literal with
optional fraction and exponent.  `none` models `ValueError`. -/
def pyFloat? (s : String) : Option PyFloat :=
  match (pyStrip s).data with
  | [] => none
  | cs =>
    let (neg, cs1) := parseSign cs
    let low := cs1.map Char.toLower
    if low = "inf".data ∨ low = "infinity".data then
      some (if neg then PyFloat.neginf else PyFloat.inf)
    else if low = "nan".data then some PyFloat.nan
    else
      match parseMantissa cs1 with
      | none => none
      | some (mn, scale, rest) =>
        match parseExp rest with
        | none => none
        | some e =>
          let n : Nat := if 0 ≤ e then mn * 10 ^ e.toNat else mn
          let d : Nat := if 0 ≤ e then 10 ^ scale else 10 ^ scale * 10 ^ (-e).toNat
          let nd := normRat (if neg then -(n : Int) else (n : Int)) d
          some (PyFloat.finite nd.1 nd.2)

/-- The per-row validation block of `import_products` (source lines
54–90): skip when `Description` is `NaN`/missing or strips to empty,
skip when `UnitPrice` is `NaN`/missing, skip when `float(UnitPrice)`
raises; otherwise build the record that is inserted, with
`product_name` the stripped description, `price` the parsed number, and
`description`/`category`/`image_url` set to `None`. -/
def validate_row (r : SourceRow) : Option ProductRecord :=
  match r.description with
  | none => none
  | some d =>
    if pyStrip d = "" then none
    else
      match r.unitPrice with
      | none => none
      | some p =>
        match pyFloat? p with
        | none => none
        | some x =>
          some { product_name := pyStrip d, description := none, price := x,
                 category := none, image_url := none }

/-- `true` when `validate_row` accepts the row. -/
def rowOk (r : SourceRow) : Bool :=
  (validate_row r).isSome

/-- The records a list of rows contributes, in row order. -/
def validRows (rows : List SourceRow) : List ProductRecord :=
  rows.filterMap validate_row

/-- The sqlite connection: rows visible to other connections
(`committed`) and rows inserted in the open transaction (`pending`). -/
structure DB where
  committed : List ProductRecord
  pending : List ProductRecord
deriving DecidableEq, Repr

/-- `cursor.execute("INSERT INTO products ...")`: adds to the open
transaction. -/
def DB.insert (db : DB) (r : ProductRecord) : DB :=
  { db with pending := db.pending ++ [r] }

/-- `conn.commit()`: makes the pending inserts durable. -/
def DB.commit (db : DB) : DB :=
  { committed := db.committed ++ db.pending, pending := [] }

/-- `conn.rollback()`: discards the pending inserts. -/
def DB.rollback (db : DB) : DB :=
  { db with pending := [] }

/-- What `pd.read_csv` finds at `CSV_FILE`: the file may be absent
(`FileNotFoundError`), may have no parseable columns at all — a
completely empty file — (`pandas.errors.EmptyDataError`), or parses to a
data frame with the given data rows (possibly zero rows when only the
header line is present). -/
inductive CsvFile where
  | missing
  | noColumns
  | table (rows : List SourceRow)
deriving DecidableEq, Repr

/-- How a run of `import_products` ends, as reported on the console:
normal completion with the imported and skipped counters, the
`FileNotFoundError` handler, the `EmptyDataError` handler, or the
generic `Exception` handler (which rolls back). -/
inductive Outcome where
  | completed (imported skipped : Nat)
  | sourceMissing
  | emptySource
  | fatal
deriving DecidableEq, Repr

/-- Decrement a pending fault countdown. -/
def decFault : Option Nat → Option Nat
  | none => none
  | some k => some (k - 1)

/-- The row loop of `import_products` (source lines 43–90) threading the
sqlite connection.  `fault = some k` injects an unexpected exception
just before the `k`-th remaining row is handled (`k` = number of rows
still to process models a failure after the loop, before the commit);
`Sum.inl` returns the connection state at the moment the exception
escapes, `Sum.inr` the final state with the imported and skipped
counters. -/
def processRows : List SourceRow → DB → Option Nat → Sum DB (DB × Nat × Nat)
  | rows, db, fault =>
    if fault = some 0 then Sum.inl db
    else
      match rows with
      | [] => Sum.inr (db, 0, 0)
      | r :: rs =>
        match validate_row r with
        | some rec =>
          match processRows rs (db.insert rec) (decFault fault) with
          | Sum.inl d => Sum.inl d
          | Sum.inr (d, imp, skp) => Sum.inr (d, imp + 1, skp)
        | none =>
          match processRows rs db (decFault fault) with
          | Sum.inl d => Sum.inl d
          | Sum.inr (d, imp, skp) => Sum.inr (d, imp, skp + 1)

/-- The whole importer run (source lines 9–112).  `store` is the table
contents committed by prior runs; the result is the table contents
visible after `conn.close()` together with the reported outcome.
Reading a missing file raises `FileNotFoundError` before any database
work; a file with no parseable columns raises `EmptyDataError`; row
processing inserts inside one transaction and a single `conn.commit()`
follows the loop, while the generic handler calls `conn.rollback()`. -/
def import_products (store : List ProductRecord) (source : CsvFile)
    (fault : Option Nat) : List ProductRecord × Outcome :=
  match source with
  | .missing => (store, .sourceMissing)
  | .noColumns => (store, .emptySource)
  | .table rows =>
    match processRows rows { committed := store, pending := [] } fault with
    | Sum.inr (db, imported, skipped) => ((DB.commit db).committed, .completed imported skipped)
    | Sum.inl db => ((DB.rollback db).committed, .fatal)

/-- The reduced user profile built by `otpless_verify` in
`Server/app.py`. -/
structure UserInfo where
  name : String
  email : String
  mobile : String
deriving DecidableEq, Repr

/-- The `user` object of the verification service's JSON response; each
field may be absent. -/
structure OtplessUser where
  name : Option String
  email : Option String
  mobile : Option String
deriving DecidableEq, Repr

/-- The verification service's JSON response body; the `user` object may
be absent (`verify_data.get("user", {})`). -/
structure VerifyData where
  user : Option OtplessUser
deriving DecidableEq, Repr

/-- What the endpoint sends back: a 200 with the app token and the
reshaped profile, or an error status. -/
inductive VerifyResponse where
  | ok (token : String) (user : UserInfo)
  | failed (status : Nat)
deriving DecidableEq, Repr

/-- The `/api/auth/otpless-verify` handler (`Server/app.py` lines
122–166): reject a missing or empty token with 400, reject a non-200
service status with 401, otherwise reshape `verify_data` with
`.get("user", {}).get(field, default)` and return the placeholder app
token. -/
def otpless_verify (token : Option String) (statusCode : Nat)
    (verify_data : VerifyData) : VerifyResponse :=
  match token with
  | none => .failed 400
  | some t =>
    if t = "" then .failed 400
    else if statusCode ≠ 200 then .failed 401
    else
      let u := verify_data.user.getD { name := none, email := none, mobile := none }
      .ok "dummy-auth-token-for-demo"
        { name := u.name.getD "UpLyft User", email := u.email.getD "",
          mobile := u.mobile.getD "" }

/-! Helper lemmas about the row loop. -/

theorem validRows_nil : validRows [] = [] := rfl

theorem validRows_cons (r : SourceRow) (rs : List SourceRow) :
    validRows (r :: rs) =
      (match validate_row r with
       | some rec => rec :: validRows rs
       | none => validRows rs) := by
  cases h : validate_row r <;> simp [validRows, List.filterMap_cons, h]

/-- A fault-free pass over the rows inserts exactly the records of the
valid rows, in order, into the open transaction, and reports one
imported row per valid row and one skipped row per invalid row. -/
theorem processRows_none (rows : List SourceRow) : ∀ db : DB,
    processRows rows db none = Sum.inr
      ({ committed := db.committed, pending := db.pending ++ validRows rows },
       (rows.filter rowOk).length,
       (rows.filter (fun r => ! rowOk r)).length) := by
  induction rows with
  | nil => intro db; simp [processRows, validRows]
  | cons r rs ih =>
    intro db
    rw [processRows]
    cases h : validate_row r with
    | some rec =>
      have hok : rowOk r = true := by simp [rowOk, h]
      simp [decFault, h, ih, DB.insert, validRows_cons, hok, List.filter_cons]
    | none =>
      have hok : rowOk r = false := by simp [rowOk, h]
      simp [decFault, h, ih, validRows_cons, hok, List.filter_cons]

/-- If the loop escapes with an exception, the connection state at that
moment still has the committed rows it started with: inserts only ever
touch the open transaction. -/
theorem processRows_inl_committed (rows : List SourceRow) :
    ∀ (db d : DB) (fault : Option Nat),
      processRows rows db fault = Sum.inl d → d.committed = db.committed := by
  induction rows with
  | nil =>
    intro db d fault h
    rw [processRows] at h
    by_cases hf : fault = some 0
    · rw [if_pos hf] at h
      cases h
      rfl
    · rw [if_neg hf] at h
      cases h
  | cons r rs ih =>
    intro db d fault h
    rw [processRows] at h
    by_cases hf : fault = some 0
    · rw [if_pos hf] at h
      cases h
      rfl
    · rw [if_neg hf] at h
      cases hv : validate_row r with
      | some rec =>
        simp only [hv] at h
        cases hrec : processRows rs (db.insert rec) (decFault fault) with
        | inl d' =>
          simp only [hrec] at h
          cases h
          exact ih (db.insert rec) _ _ hrec
        | inr x =>
          obtain ⟨d2, imp2, skp2⟩ := x
          simp only [hrec] at h
          cases h
      | none =>
        simp only [hv] at h
        cases hrec : processRows rs db (decFault fault) with
        | inl d' =>
          simp only [hrec] at h
          cases h
          exact ih db _ _ hrec
        | inr x =>
          obtain ⟨d2, imp2, skp2⟩ := x
          simp only [hrec] at h
          cases h

/-- An exception scheduled within the run (including right after the
loop, before the commit) always escapes the loop. -/
theorem processRows_fault_inl (rows : List SourceRow) :
    ∀ (db : DB) (k : Nat), k ≤ rows.length →
      ∃ d, processRows rows db (some k) = Sum.inl d := by
  induction rows with
  | nil =>
    intro db k hk
    have hk0 : k = 0 := Nat.le_zero.mp hk
    subst hk0
    exact ⟨db, by rw [processRows]; simp⟩
  | cons r rs ih =>
    intro db k hk
    cases k with
    | zero => exact ⟨db, by rw [processRows]; simp⟩
    | succ k' =>
      rw [processRows]
      have hne : (some (k' + 1) = some 0) = False := by simp
      have hk' : k' ≤ rs.length := Nat.le_of_succ_le_succ hk
      have hdec : decFault (some (k' + 1)) = some k' := by simp [decFault]
      cases hv : validate_row r with
      | some rec =>
        obtain ⟨d, hd⟩ := ih (db.insert rec) k' hk'
        exact ⟨d, by simp [hne, hv, hdec, hd]⟩
      | none =>
        obtain ⟨d, hd⟩ := ih db k' hk'
        exact ⟨d, by simp [hne, hv, hdec, hd]⟩

/-- Anatomy of an accepted row: the record a row validates to is built
from a present, non-blank description and a parsed unit price. -/
theorem validate_row_eq_some {r : SourceRow} {rec : ProductRecord}
    (h : validate_row r = some rec) :
    ∃ d p x, r.description = some d ∧ pyStrip d ≠ "" ∧ r.unitPrice = some p ∧
      pyFloat? p = some x ∧
      rec = { product_name := pyStrip d, description := none, price := x,
              category := none, image_url := none } := by
  cases hd : r.description with
  | none =>
    rw [validate_row] at h
    simp only [hd] at h
    cases h
  | some d =>
    rw [validate_row] at h
    simp only [hd] at h
    by_cases hs : pyStrip d = ""
    · rw [if_pos hs] at h
      cases h
    · rw [if_neg hs] at h
      cases hp : r.unitPrice with
      | none =>
        simp only [hp] at h
        cases h
      | some p =>
        simp only [hp] at h
        cases hx : pyFloat? p with
        | none =>
          simp only [hx] at h
          cases h
        | some x =>
          simp only [hx] at h
          cases h
          exact ⟨d, p, x, rfl, hs, rfl, hx, rfl⟩

/-- The records contributed by a list of rows are one per valid row. -/
theorem length_validRows (rows : List SourceRow) :
    (validRows rows).length = (rows.filter rowOk).length := by
  induction rows with
  | nil => rfl
  | cons r rs ih =>
    cases h : validate_row r with
    | some rec =>
      have hok : rowOk r = true := by simp [rowOk, h]
      simp [validRows_cons, h, hok, List.filter_cons, ih]
    | none =>
      have hok : rowOk r = false := by simp [rowOk, h]
      simp [validRows_cons, h, hok, List.filter_cons, ih]

/-- Every row is counted on exactly one side of the valid/invalid split. -/
theorem filter_rowOk_partition (rows : List SourceRow) :
    (rows.filter rowOk).length + (rows.filter (fun r => ! rowOk r)).length
      = rows.length := by
  induction rows with
  | nil => rfl
  | cons r rs ih =>
    cases hok : rowOk r <;> simp [List.filter_cons, hok, ih] <;> omega

/-! Theorems settling the claims. -/

/-- Claim C1: a run over a source with `N` valid rows (present
description that does not strip to empty, and a unit price accepted by
`float`) and `M` invalid rows persists exactly the `N` records of the
valid rows — appended to the prior store — and reports a skip count of
exactly `M`. -/
theorem import_counts (rows : List SourceRow) (N M : Nat)
    (hN : (rows.filter rowOk).length = N)
    (hM : (rows.filter (fun r => ! rowOk r)).length = M) :
    ∀ store : List ProductRecord,
      (import_products store (CsvFile.table rows) none).1 = store ++ validRows rows ∧
      (validRows rows).length = N ∧
      (import_products store (CsvFile.table rows) none).2 = Outcome.completed N M := by
  intro store
  subst hN hM
  refine ⟨?_, length_validRows rows, ?_⟩ <;>
    simp [import_products, processRows_none, DB.commit]

/-- Witness for C1, the spec's worked example: of the four rows
`("Blue Mug", "2.50")`, `("", "3.00")`, `("Red Pen", "abc")`,
`("Green Pencil", "")` exactly the first is persisted and three are
skipped. -/
theorem import_counts_witness :
    (import_products []
        (CsvFile.table
          [⟨some "Blue Mug", some "2.50"⟩, ⟨some "", some "3.00"⟩,
           ⟨some "Red Pen", some "abc"⟩, ⟨some "Green Pencil", some ""⟩]) none).1
      = [] ++ validRows
          [⟨some "Blue Mug", some "2.50"⟩, ⟨some "", some "3.00"⟩,
           ⟨some "Red Pen", some "abc"⟩, ⟨some "Green Pencil", some ""⟩] ∧
    (validRows
        [⟨some "Blue Mug", some "2.50"⟩, ⟨some "", some "3.00"⟩,
         ⟨some "Red Pen", some "abc"⟩, ⟨some "Green Pencil", some ""⟩]).length = 1 ∧
    (import_products []
        (CsvFile.table
          [⟨some "Blue Mug", some "2.50"⟩, ⟨some "", some "3.00"⟩,
           ⟨some "Red Pen", some "abc"⟩, ⟨some "Green Pencil", some ""⟩]) none).2
      = Outcome.completed 1 3 :=
  import_counts
    [⟨some "Blue Mug", some "2.50"⟩, ⟨some "", some "3.00"⟩,
     ⟨some "Red Pen", some "abc"⟩, ⟨some "Green Pencil", some ""⟩]
    1 3 (by decide) (by decide) []

/-- Claim C2, counterexample: the code validates only presence, not
sign or finiteness.  The row `("Widget", "-1")` is persisted with the
negative price `-1`, and the row `("Gadget", "inf")` is persisted with
the non-finite price `inf`, contradicting the claim that every
persisted record has a finite, non-negative price. -/
theorem negative_and_infinite_price_persisted :
    (import_products [] (CsvFile.table [⟨some "Widget", some "-1"⟩]) none).1
        = [⟨"Widget", none, PyFloat.finite (-1) 1, none, none⟩] ∧
    (PyFloat.finite (-1) 1).isNonneg = false ∧
    (import_products [] (CsvFile.table [⟨some "Gadget", some "inf"⟩]) none).1
        = [⟨"Gadget", none, PyFloat.inf, none, none⟩] ∧
    PyFloat.inf.isFinite = false := by
  decide

/-- Claim C2 as amended: every record a run persists is either from the
prior store or comes from a row whose description is present and does
not strip to empty — the record's `product_name`, which is non-empty —
and whose unit price `float`-parses to exactly the record's `price`;
rows failing those checks are never persisted.  (No non-negativity or
finiteness constraint holds: the parse may yield negative, infinite or
NaN prices.) -/
theorem persisted_record_shape (store : List ProductRecord) (rows : List SourceRow)
    (rec : ProductRecord)
    (h : rec ∈ (import_products store (CsvFile.table rows) none).1) :
    rec ∈ store ∨
      ∃ r ∈ rows, ∃ d p, r.description = some d ∧ r.unitPrice = some p ∧
        rec.product_name = pyStrip d ∧ rec.product_name ≠ "" ∧
        pyFloat? p = some rec.price ∧
        rec.description = none ∧ rec.category = none ∧ rec.image_url = none := by
  rw [import_products] at h
  simp only [processRows_none, DB.commit] at h
  rcases List.mem_append.mp h with hs | hv
  · exact Or.inl hs
  · right
    simp only [validRows] at hv
    obtain ⟨r, hr, hval⟩ := List.mem_filterMap.mp hv
    obtain ⟨d, p, x, hd, hne, hp, hx, hrec⟩ := validate_row_eq_some hval
    subst hrec
    exact ⟨r, hr, d, p, hd, hp, rfl, hne, hx, rfl, rfl, rfl⟩

/-- Witness for the amended C2 at a concrete run. -/
theorem persisted_record_shape_witness :
    (⟨"Blue Mug", none, PyFloat.finite 5 2, none, none⟩ : ProductRecord) ∈
        ([] : List ProductRecord) ∨
      ∃ r ∈ [(⟨some " Blue Mug ", some "2.50"⟩ : SourceRow)], ∃ d p,
        r.description = some d ∧ r.unitPrice = some p ∧
        (⟨"Blue Mug", none, PyFloat.finite 5 2, none, none⟩ : ProductRecord).product_name
          = pyStrip d ∧
        (⟨"Blue Mug", none, PyFloat.finite 5 2, none, none⟩ : ProductRecord).product_name
          ≠ "" ∧
        pyFloat? p = some (⟨"Blue Mug", none, PyFloat.finite 5 2, none, none⟩ :
          ProductRecord).price ∧
        (⟨"Blue Mug", none, PyFloat.finite 5 2, none, none⟩ : ProductRecord).description
          = none ∧
        (⟨"Blue Mug", none, PyFloat.finite 5 2, none, none⟩ : ProductRecord).category
          = none ∧
        (⟨"Blue Mug", none, PyFloat.finite 5 2, none, none⟩ : ProductRecord).image_url
          = none :=
  persisted_record_shape [] [⟨some " Blue Mug ", some "2.50"⟩]
    ⟨"Blue Mug", none, PyFloat.finite 5 2, none, none⟩ (by decide)

/-- Claim C3: a row with a present description that does not strip to
empty and a unit price accepted by `float` validates to — and, in any
run whose source contains the row, persists — a record whose
`product_name` is the stripped description, whose `price` is the parsed
value, and whose `description`, `category` and `image_url` are absent. -/
theorem valid_row_persisted (r : SourceRow) (d p : String) (x : PyFloat)
    (h1 : r.description = some d) (h2 : pyStrip d ≠ "")
    (h3 : r.unitPrice = some p) (h4 : pyFloat? p = some x) :
    validate_row r = some { product_name := pyStrip d, description := none, price := x,
                            category := none, image_url := none } ∧
    ∀ (store : List ProductRecord) (rows : List SourceRow), r ∈ rows →
      ({ product_name := pyStrip d, description := none, price := x, category := none,
         image_url := none } : ProductRecord)
        ∈ (import_products store (CsvFile.table rows) none).1 := by
  have hval : validate_row r = some { product_name := pyStrip d, description := none,
                                      price := x, category := none,
                                      image_url := none } := by
    rw [validate_row]
    simp only [h1, h3, h4, if_neg h2]
  refine ⟨hval, ?_⟩
  intro store rows hmem
  rw [import_products]
  simp only [processRows_none, DB.commit]
  refine List.mem_append.mpr (Or.inr ?_)
  exact List.mem_filterMap.mpr ⟨r, hmem, hval⟩

/-- Witness for C3: the row `(" Blue Mug ", "2.50")` is persisted as
`product_name = "Blue Mug"` (stripped) with price `5/2`. -/
theorem valid_row_persisted_witness :
    validate_row ⟨some " Blue Mug ", some "2.50"⟩
      = some { product_name := pyStrip " Blue Mug ", description := none,
               price := PyFloat.finite 5 2, category := none, image_url := none } ∧
    ∀ (store : List ProductRecord) (rows : List SourceRow),
      (⟨some " Blue Mug ", some "2.50"⟩ : SourceRow) ∈ rows →
      ({ product_name := pyStrip " Blue Mug ", description := none,
         price := PyFloat.finite 5 2, category := none, image_url := none } :
        ProductRecord) ∈ (import_products store (CsvFile.table rows) none).1 :=
  valid_row_persisted ⟨some " Blue Mug ", some "2.50"⟩ " Blue Mug " "2.50"
    (PyFloat.finite 5 2) (by decide) (by decide) (by decide) (by decide)

/-- Claim C4: a row whose description is missing or strips to empty, or
whose unit price is missing or rejected by `float`, is never validated;
prepending it to a source leaves the persisted records of the run
unchanged while the reported skip count grows by exactly one and the
imported count is unchanged — the run still completes. -/
theorem invalid_row_skipped (r : SourceRow)
    (h : r.description = none ∨ (∃ d, r.description = some d ∧ pyStrip d = "") ∨
         r.unitPrice = none ∨ (∃ p, r.unitPrice = some p ∧ pyFloat? p = none)) :
    validate_row r = none ∧
    ∀ (store : List ProductRecord) (rows : List SourceRow),
      (import_products store (CsvFile.table (r :: rows)) none).1
        = (import_products store (CsvFile.table rows) none).1 ∧
      ∀ i s : Nat,
        (import_products store (CsvFile.table rows) none).2 = Outcome.completed i s →
        (import_products store (CsvFile.table (r :: rows)) none).2
          = Outcome.completed i (s + 1) := by
  have hval : validate_row r = none := by
    rw [validate_row]
    rcases h with hd | ⟨d, hd, hds⟩ | hp | ⟨p, hp, hpf⟩
    · simp [hd]
    · simp [hd, hds]
    · cases hd : r.description with
      | none => simp
      | some d =>
        simp only [hp]
        by_cases hds : pyStrip d = "" <;> simp [hds]
    · cases hd : r.description with
      | none => simp
      | some d =>
        simp only [hp, hpf]
        by_cases hds : pyStrip d = "" <;> simp [hds]
  have hok : rowOk r = false := by simp [rowOk, hval]
  refine ⟨hval, ?_⟩
  intro store rows
  constructor
  · simp [import_products, processRows_none, DB.commit, validRows_cons, hval]
  · intro i s hs
    simp only [import_products, processRows_none, DB.commit] at hs ⊢
    simp only [List.filter_cons, hok, Bool.not_false, if_neg, cond_false] at *
    simp only [Outcome.completed.injEq] at hs ⊢
    refine ⟨hs.1, ?_⟩
    simp [← hs.2]

/-- Witness for C4: prepending the bad row `("Red Pen", "abc")` to the
one-valid-row source leaves the single persisted record and turns the
report from 1 imported / 0 skipped into 1 imported / 1 skipped. -/
theorem invalid_row_skipped_witness :
    validate_row ⟨some "Red Pen", some "abc"⟩ = none ∧
    (import_products []
        (CsvFile.table
          [⟨some "Red Pen", some "abc"⟩, ⟨some "Blue Mug", some "2.50"⟩]) none).1
      = (import_products [] (CsvFile.table [⟨some "Blue Mug", some "2.50"⟩]) none).1 ∧
    (import_products []
        (CsvFile.table
          [⟨some "Red Pen", some "abc"⟩, ⟨some "Blue Mug", some "2.50"⟩]) none).2
      = Outcome.completed 1 (0 + 1) :=
  have T := invalid_row_skipped ⟨some "Red Pen", some "abc"⟩
    (Or.inr (Or.inr (Or.inr ⟨"abc", rfl, by decide⟩)))
  ⟨T.1, (T.2 [] [⟨some "Blue Mug", some "2.50"⟩]).1,
    (T.2 [] [⟨some "Blue Mug", some "2.50"⟩]).2 1 0 (by decide)⟩

/-- Claim C5: when the source file does not exist the run ends in the
`FileNotFoundError` handler — the "source missing" message — with the
table untouched, whatever was committed before and wherever a fault
might have been scheduled. -/
theorem missing_source_no_mutation (store : List ProductRecord) (fault : Option Nat) :
    import_products store CsvFile.missing fault = (store, Outcome.sourceMissing) :=
  rfl

/-- Claim C6, counterexample: a source consisting of only a header line
parses to a zero-row table, and the run then *completes* with zero
imports and zero skips instead of failing with the "empty source"
error. -/
theorem header_only_source_completes :
    import_products [] (CsvFile.table []) none = ([], Outcome.completed 0 0) ∧
    Outcome.completed 0 0 ≠ Outcome.emptySource := by
  decide

/-- Claim C6 as amended: only a source file with no parseable columns
at all (a completely empty file) makes the run fail with the
"empty source" (`EmptyDataError`) message, with the table untouched; a
source that parses but has zero data rows — e.g. only a header line —
completes normally with zero imports and zero skips. -/
theorem empty_source_behavior :
    (∀ (store : List ProductRecord) (fault : Option Nat),
      import_products store CsvFile.noColumns fault = (store, Outcome.emptySource)) ∧
    ∀ store : List ProductRecord,
      import_products store (CsvFile.table []) none = (store, Outcome.completed 0 0) := by
  refine ⟨fun store fault => rfl, fun store => ?_⟩
  simp [import_products, processRows_none, DB.commit, validRows]

/-- Claim C7: an unexpected exception anywhere in the run — before any
row, between rows, or after the loop but before the commit — makes the
run end in the generic handler, which rolls the transaction back: the
table keeps exactly the records committed by prior runs and none of
this run's inserts survive. -/
theorem fault_rolls_back (store : List ProductRecord) (rows : List SourceRow) (k : Nat)
    (h : k ≤ rows.length) :
    import_products store (CsvFile.table rows) (some k) = (store, Outcome.fatal) := by
  obtain ⟨d, hd⟩ := processRows_fault_inl rows ⟨store, []⟩ k h
  have hc : d.committed = store := processRows_inl_committed rows ⟨store, []⟩ d (some k) hd
  rw [import_products, hd]
  simp [DB.rollback, hc]

/-- Witness for C7: a fault after the first of two rows rolls back the
insert already made, leaving the previously committed record alone. -/
theorem fault_rolls_back_witness :
    import_products [⟨"old", none, PyFloat.finite 1 1, none, none⟩]
        (CsvFile.table [⟨some "A", some "1"⟩, ⟨some "B", some "2"⟩]) (some 1)
      = ([⟨"old", none, PyFloat.finite 1 1, none, none⟩], Outcome.fatal) :=
  fault_rolls_back [⟨"old", none, PyFloat.finite 1 1, none, none⟩]
    [⟨some "A", some "1"⟩, ⟨some "B", some "2"⟩] 1 (by decide)

/-- Claim C8: running the importer twice over the same source without
clearing the store in between appends the valid rows' records a second
time: the store ends with the duplicated record list, of length twice
the number of valid rows. -/
theorem rerun_duplicates (rows : List SourceRow) :
    (import_products (import_products [] (CsvFile.table rows) none).1
        (CsvFile.table rows) none).1
      = validRows rows ++ validRows rows ∧
    (import_products (import_products [] (CsvFile.table rows) none).1
        (CsvFile.table rows) none).1.length
      = 2 * (rows.filter rowOk).length := by
  have h1 : (import_products [] (CsvFile.table rows) none).1 = validRows rows := by
    simp [import_products, processRows_none, DB.commit]
  have h2 : (import_products (validRows rows) (CsvFile.table rows) none).1
      = validRows rows ++ validRows rows := by
    simp [import_products, processRows_none, DB.commit]
  rw [h1, h2]
  refine ⟨rfl, ?_⟩
  rw [List.length_append, length_validRows, Nat.two_mul]

/-- Claim C9: whenever the verification service answers with status 200,
the endpoint returns HTTP 200 with the fixed placeholder credential
`"dummy-auth-token-for-demo"` and a profile holding exactly `name`,
`email` and `mobile`, where a missing `user` object or missing fields
are replaced by the defaults `"UpLyft User"`, `""` and `""`, and present
fields pass through unchanged. -/
theorem otpless_reshape (t : String) (ht : t ≠ "") (nm em mb : Option String) :
    otpless_verify (some t) 200 ⟨some ⟨nm, em, mb⟩⟩
      = VerifyResponse.ok "dummy-auth-token-for-demo"
          ⟨nm.getD "UpLyft User", em.getD "", mb.getD ""⟩ ∧
    otpless_verify (some t) 200 ⟨none⟩
      = VerifyResponse.ok "dummy-auth-token-for-demo" ⟨"UpLyft User", "", ""⟩ := by
  constructor <;> simp [otpless_verify, ht]

/-- Witness for C9 at a concrete token and a response carrying only an
email: name and mobile fall back to their defaults. -/
theorem otpless_reshape_witness :
    otpless_verify (some "tok") 200 ⟨some ⟨none, some "a@b.c", none⟩⟩
      = VerifyResponse.ok "dummy-auth-token-for-demo"
          ⟨(none : Option String).getD "UpLyft User", (some "a@b.c").getD "",
           (none : Option String).getD ""⟩ ∧
    otpless_verify (some "tok") 200 ⟨none⟩
      = VerifyResponse.ok "dummy-auth-token-for-demo" ⟨"UpLyft User", "", ""⟩ :=
  otpless_reshape "tok" (by decide) none (some "a@b.c") none

/-- Claim C10: a completed run classifies every source row exactly once,
so the reported imported count plus the reported skip count equals the
number of rows read. -/
theorem imported_add_skipped (store : List ProductRecord) (rows : List SourceRow) :
    ∃ imported skipped : Nat,
      (import_products store (CsvFile.table rows) none).2
        = Outcome.completed imported skipped ∧
      imported + skipped = rows.length := by
  refine ⟨(rows.filter rowOk).length, (rows.filter (fun r => ! rowOk r)).length, ?_,
    filter_rowOk_partition rows⟩
  simp [import_products, processRows_none]

end UpLyft
